import Mathlib

/-!
Shallow embedding of `goethe_booking_bot.py`: student data model, CSV/env
loading, the poll loop, the step sequencer, the login and personal-form
fillers, the alarm controller, and the per-student orchestration.  Browser
effects are modelled by explicit environments (what the page shows at each
probe) and traces of the actions the code performs.
-/

-- ---------------------------------------------------------------------------
-- Embedded fallback credentials / config constants
-- ---------------------------------------------------------------------------

def EMBED_EMAIL : String := "dummy@example.com"

def EMBED_PASSWORD : String := "DummyPass123!"

def EMBED_PHONE : String := "+254700000000"

def EMBED_FIRST_NAME : String := "Test"

def EMBED_SURNAME : String := "User"

def EMBED_COUNTY : String := "Nairobi"

def EMBED_DOB : String := "2000-01-01"

def EMBED_PLACE_OF_BIRTH : String := "Nairobi"

def EMBED_ZIP : String := "00100"

def MAX_REFRESH_MS : ℚ := 800

def ALARM_REPEAT_SEC : Nat := 60

-- ---------------------------------------------------------------------------
-- Data model
-- ---------------------------------------------------------------------------

structure Student where
  email : String
  password : String
  phone : String
  first_name : String
  surname : String
  county : String
  dob : String
  place_of_birth : String
  zip_code : String
deriving Repr, DecidableEq

/-- `row.get(key, "")` over a CSV row modelled as an association list. -/
def rowGet (row : List (String × String)) (key : String) : String :=
  ((row.find? (fun kv => kv.1 == key)).map (fun kv => kv.2)).getD ""

/-- `Student.from_row`: build a student from a CSV row, missing columns
becoming the empty string. -/
def Student.from_row (row : List (String × String)) : Student where
  email := rowGet row "email"
  password := rowGet row "password"
  phone := rowGet row "phone"
  first_name := rowGet row "first_name"
  surname := rowGet row "surname"
  county := rowGet row "county"
  dob := rowGet row "dob"
  place_of_birth := rowGet row "place_of_birth"
  zip_code := rowGet row "zip_code"

def DUMMY_STUDENT : Student where
  email := EMBED_EMAIL
  password := EMBED_PASSWORD
  phone := EMBED_PHONE
  first_name := EMBED_FIRST_NAME
  surname := EMBED_SURNAME
  county := EMBED_COUNTY
  dob := EMBED_DOB
  place_of_birth := EMBED_PLACE_OF_BIRTH
  zip_code := EMBED_ZIP

-- ---------------------------------------------------------------------------
-- CSV loading.  The outcome of reading the file is an explicit input: the
-- rows yielded by the CSV reader before the read either finished or raised
-- (a raised exception is only logged, the rows read so far are kept).
-- ---------------------------------------------------------------------------

structure CsvOutcome where
  rows : List (List (String × String))
  errored : Bool
deriving Repr, DecidableEq

/-- `load_students_from_csv`: `None`/empty path falls back to the embedded
default; otherwise the parsed rows, or the embedded default when none. -/
def load_students_from_csv (path : Option String) (read : CsvOutcome) :
    List Student :=
  match path with
  | none => [DUMMY_STUDENT]
  | some p =>
      if p == "" then [DUMMY_STUDENT]
      else
        let students := read.rows.map Student.from_row
        if students.isEmpty then [DUMMY_STUDENT] else students

-- ---------------------------------------------------------------------------
-- Environment variables
-- ---------------------------------------------------------------------------

/-- `os.getenv(key, default)` over an explicit environment snapshot. -/
def getenv (env : String → Option String) (key default : String) : String :=
  (env key).getD default

def student_from_env (env : String → Option String) : Student where
  email := getenv env "GOETHE_EMAIL" EMBED_EMAIL
  password := getenv env "GOETHE_PASSWORD" EMBED_PASSWORD
  phone := getenv env "GOETHE_PHONE" EMBED_PHONE
  first_name := getenv env "GOETHE_FIRST_NAME" EMBED_FIRST_NAME
  surname := getenv env "GOETHE_SURNAME" EMBED_SURNAME
  county := getenv env "GOETHE_COUNTY" EMBED_COUNTY
  dob := getenv env "GOETHE_DOB" EMBED_DOB
  place_of_birth := getenv env "GOETHE_PLACE_OF_BIRTH" EMBED_PLACE_OF_BIRTH
  zip_code := getenv env "GOETHE_ZIP" EMBED_ZIP

/-- `build_students(ignore_env, env_only, csv_path)`, with the ambient
environment snapshot and CSV read outcome made explicit inputs. -/
def build_students (ignore_env env_only : Bool) (csv_path : Option String)
    (env : String → Option String) (read : CsvOutcome) : List Student :=
  if ignore_env then
    if env_only then [DUMMY_STUDENT] else load_students_from_csv csv_path read
  else
    if env_only then [student_from_env env]
    else load_students_from_csv csv_path read

-- ---------------------------------------------------------------------------
-- Random refresh delay.  `random.uniform(a, b)` returns `a + (b-a)*u` for a
-- generator output `u` in `[0, 1)`; the delay is that over 1000.
-- ---------------------------------------------------------------------------

def random_uniform (a b u : ℚ) : ℚ := a + (b - a) * u

def rand_refresh_delay (u : ℚ) : ℚ :=
  random_uniform 0 MAX_REFRESH_MS u / 1000

-- ---------------------------------------------------------------------------
-- Poll loop (`_poll_until_select_modules`).  Each iteration probes the page:
-- whether the SELECT MODULES control becomes visible within the timeout, and
-- whether `_find_enabled_exam_button` finds an enabled `.pr-buttons` button.
-- The loop body is pure control flow over those probes; reload success only
-- changes logging, never the exit condition.
-- ---------------------------------------------------------------------------

structure PollIter where
  selectModulesVisible : Bool
  enabledExamButton : Bool
  reloadOk : Bool
deriving Repr, DecidableEq

inductive PollResult where
  | primaryClicked
  | fallbackClicked
deriving Repr, DecidableEq

/-- One pass of the `while True` body of `_poll_until_select_modules`:
`some r` when branch 1 or branch 2 clicked and returned, `none` when the
iteration fell through to the reload and the loop continues. -/
def pollIterResult (it : PollIter) : Option PollResult :=
  if it.selectModulesVisible then some PollResult.primaryClicked
  else if it.enabledExamButton then some PollResult.fallbackClicked
  else none

/-- The poll loop, observed for `fuel` iterations starting at iteration `i`:
`some r` when some observed iteration clicked a control, `none` when the
loop was still reloading after `fuel` iterations. -/
def pollLoopAux (env : Nat → PollIter) : Nat → Nat → Option PollResult
  | _, 0 => none
  | i, fuel + 1 =>
      match pollIterResult (env i) with
      | some r => some r
      | none => pollLoopAux env (i + 1) fuel

def poll_until_select_modules (env : Nat → PollIter) (fuel : Nat) :
    Option PollResult :=
  pollLoopAux env 0 fuel

-- ---------------------------------------------------------------------------
-- Login (`_login`).  Per email selector the page either has no element, has
-- one whose `fill` succeeds, or raises (query or fill); an exception is
-- logged and the loop continues with the next selector.  `filled` becomes
-- true only on a successful email fill.  The password loop is identical in
-- shape but its outcome is never consulted.
-- ---------------------------------------------------------------------------

inductive SelOutcome where
  | notFound
  | filledOk
  | raised
deriving Repr, DecidableEq

/-- The selector loop of `_login`: true iff some selector found an element
and filled it without raising (stopping at the first such selector). -/
def fillLoop : List SelOutcome → Bool
  | [] => false
  | SelOutcome.notFound :: rest => fillLoop rest
  | SelOutcome.filledOk :: _ => true
  | SelOutcome.raised :: rest => fillLoop rest

structure LoginEnv where
  emailSel : List SelOutcome
  pwSel : List SelOutcome
  loginClick : Bool
deriving Repr, DecidableEq

/-- `_login` result: the email loop sets `filled`, the password loop runs for
its side effects only, and the step succeeds iff `filled` and the login
control was clicked.  On failure `_goto_start` is run (see the trace model
in `run_booking`). -/
def login (env : LoginEnv) : Bool :=
  let filled := fillLoop env.emailSel
  let _pwFilled := fillLoop env.pwSel
  filled && env.loginClick

-- ---------------------------------------------------------------------------
-- Personal-details form (`_fill_personal_form`): the keyword→value list, its
-- truthiness filter, and the per-element first-match fill.
-- ---------------------------------------------------------------------------

/-- `str.lower()`, computed characterwise (kernel-reducible). -/
def lowerStr (s : String) : String :=
  String.mk (s.toList.map Char.toLower)

def mapping (s : Student) : List (String × String) :=
  [("phone", s.phone),
   ("first", s.first_name),
   ("given", s.first_name),
   ("sur", s.surname),
   ("last", s.surname),
   ("county", s.county),
   ("birth", s.place_of_birth),
   ("zip", s.zip_code),
   ("post", s.zip_code),
   ("date", s.dob),
   ("dob", s.dob)]

/-- `lower_map = [(k.lower(), v) for k, v in mapping if v]`. -/
def lower_map (s : Student) : List (String × String) :=
  ((mapping s).filter (fun kv => kv.2 != "")).map
    (fun kv => (lowerStr kv.1, kv.2))

structure FormElement where
  name : String
  placeholder : String
  ariaLabel : String
  tag : String
deriving Repr, DecidableEq

/-- `match_txt = f"{name} {placeholder} {aria}"`, each attribute lowered. -/
def matchTxt (el : FormElement) : String :=
  lowerStr el.name ++ " " ++ lowerStr el.placeholder ++ " " ++
    lowerStr el.ariaLabel

def listStartsWith : List Char → List Char → Bool
  | [], _ => true
  | _ :: _, [] => false
  | a :: as, b :: bs => a == b && listStartsWith as bs

def listContainsSub (key : List Char) : List Char → Bool
  | [] => listStartsWith key []
  | c :: rest => listStartsWith key (c :: rest) || listContainsSub key rest

/-- `key in match_txt`: substring containment. -/
def keyMatches (key txt : String) : Bool :=
  listContainsSub key.toList txt.toList

/-- The inner `for key, val in lower_map` loop: the first pair whose key
occurs in the element text wins and the loop breaks. -/
def fillFor (lm : List (String × String)) (txt : String) :
    Option (String × String) :=
  lm.find? (fun kv => keyMatches kv.1 txt)

/-- The element scan of `_fill_personal_form`: each input/select/textarea is
filled with at most one value, chosen by `fillFor`. -/
def fill_personal_fields (s : Student) (els : List FormElement) :
    List (Option (String × String)) :=
  els.map (fun el => fillFor (lower_map s) (matchTxt el))

-- ---------------------------------------------------------------------------
-- Alarm controller.  The stop flag is set by the page dblclick binding; the
-- loop beeps once per iteration, then waits up to ALARM_REPEAT_SEC for the
-- flag.  `stopAt = some k` means the flag is set by the check of iteration
-- `k`; `none` means it is never set.
-- ---------------------------------------------------------------------------

inductive AlarmEv where
  | beep
  | waitStop (sec : Nat)
deriving Repr, DecidableEq

def stopSet (stopAt : Option Nat) (i : Nat) : Bool :=
  match stopAt with
  | none => false
  | some k => decide (k ≤ i)

/-- `AlarmController._run`, observed for `fuel` iterations from iteration
`i`: `some trace` when the loop exited (stop flag observed), `none` when it
was still running.  Each iteration emits one beep then waits up to the fixed
interval. -/
def alarmRunAux (stopAt : Option Nat) : Nat → Nat → Option (List AlarmEv)
  | _, 0 => none
  | i, fuel + 1 =>
      if stopSet stopAt i then some []
      else
        (alarmRunAux stopAt (i + 1) fuel).map
          (fun t => AlarmEv.beep :: AlarmEv.waitStop ALARM_REPEAT_SEC :: t)

def alarmRun (stopAt : Option Nat) (fuel : Nat) : Option (List AlarmEv) :=
  alarmRunAux stopAt 0 fuel

/-- The page-side dblclick listener installed with `{ once: true }`: armed at
first, it delivers `alarm.stop()` on a dblclick and disarms; further page
events deliver nothing.  Returns the number of stop deliveries for a given
event sequence (`true` = dblclick, `false` = any other event). -/
def handlerRun : Bool → List Bool → Nat
  | _, [] => 0
  | false, _ :: es => handlerRun false es
  | true, e :: es => if e then 1 + handlerRun false es else handlerRun true es

-- ---------------------------------------------------------------------------
-- Step sequencer (`run_booking`) with an action trace.  The environment says
-- which labeled control each step finds; `gotoStart` is the full navigation
-- reset (`_goto_start`: navigate to START_URL + privacy dismissal).
-- ---------------------------------------------------------------------------

inductive Ev where
  | gotoStart
  | pollLoop
  | stepClicked (name : String)
  | stepFailed (name : String)
  | alarmRang
deriving Repr, DecidableEq

structure BookingEnv where
  /-- iteration at which the poll loop finds a control (`none`: never). -/
  pollFindsAt : Option Nat
  continue1 : Bool
  bookForMyself : Bool
  loginEnv : LoginEnv
  personalContinue : Bool
  continue2 : Bool
  orderBtn : Bool
  confirmationVisible : Bool
deriving Repr, DecidableEq

/-- `_advance_or_restart`: click the labeled control and proceed, or log the
failure, run `_goto_start`, and report failure. -/
def advance_or_restart (found : Bool) (name : String) : Bool × List Ev :=
  if found then (true, [Ev.stepClicked name])
  else (false, [Ev.stepFailed name, Ev.gotoStart])

/-- `run_booking`: start navigation, the poll loop, then the fixed step
sequence; each failing step runs `_goto_start` and makes `run_booking`
return `False`.  `none` models the poll loop never terminating (booking
never opens). -/
def run_booking (env : BookingEnv) : Option (Bool × List Ev) :=
  match env.pollFindsAt with
  | none => none
  | some _ =>
      let pre : List Ev := [Ev.gotoStart, Ev.pollLoop]
      let s1 := advance_or_restart env.continue1 "continue"
      if !s1.1 then some (false, pre ++ s1.2)
      else
        let s2 := advance_or_restart env.bookForMyself "book for myself"
        if !s2.1 then some (false, pre ++ s1.2 ++ s2.2)
        else
          let s3 := advance_or_restart (login env.loginEnv) "log in"
          if !s3.1 then some (false, pre ++ s1.2 ++ s2.2 ++ s3.2)
          else
            let s4 := advance_or_restart env.personalContinue "personal form continue"
            if !s4.1 then some (false, pre ++ s1.2 ++ s2.2 ++ s3.2 ++ s4.2)
            else
              let s5 := advance_or_restart env.continue2 "continue"
              if !s5.1 then some (false, pre ++ s1.2 ++ s2.2 ++ s3.2 ++ s4.2 ++ s5.2)
              else
                let s6 := advance_or_restart env.orderBtn "order, subject to change"
                if !s6.1 then
                  some (false, pre ++ s1.2 ++ s2.2 ++ s3.2 ++ s4.2 ++ s5.2 ++ s6.2)
                else
                  let steps := pre ++ s1.2 ++ s2.2 ++ s3.2 ++ s4.2 ++ s5.2 ++ s6.2
                  if !env.confirmationVisible then
                    some (false, steps ++ [Ev.stepFailed "confirmation", Ev.gotoStart])
                  else
                    some (true, steps ++ [Ev.stepClicked "confirmation", Ev.alarmRang])

/-- Number of times the poll loop was run in a trace. -/
def pollCount (t : List Ev) : Nat :=
  (t.filter (fun e => e == Ev.pollLoop)).length

-- ---------------------------------------------------------------------------
-- Orchestrator.  `_run_for_student` opens a fresh context, runs the booking
-- flow inside `try/finally` (the context is closed on every path), and has
-- no `except`: an exception propagates.  `main_async` iterates the students
-- with no exception handling around `_run_for_student`.
-- ---------------------------------------------------------------------------

inductive OEv where
  | newContext (email : String)
  | closeContext (email : String)
  | recorded (email : String) (ok : Bool)
deriving Repr, DecidableEq

/-- Outcome of one student's `run_booking` call as seen by the orchestrator:
a boolean result, or an uncaught exception. -/
inductive RunOutcome where
  | ok (b : Bool)
  | exn (msg : String)
deriving Repr, DecidableEq

/-- `try body finally fin`: the finalizer trace is appended on both the
normal and the exceptional path; the body's outcome (value or exception)
is then propagated. -/
def tryFinallyClose (body : Except String Bool × List OEv) (fin : List OEv) :
    Except String Bool × List OEv :=
  (body.1, body.2 ++ fin)

/-- `_run_for_student`: new context, run the booking flow, close the context
regardless of outcome; no `except` clause, so an exception is re-raised
after the `finally`. -/
def run_for_student (email : String) (run : RunOutcome) :
    Except String Bool × List OEv :=
  let body : Except String Bool × List OEv :=
    match run with
    | RunOutcome.ok b => (Except.ok b, [OEv.newContext email])
    | RunOutcome.exn m => (Except.error m, [OEv.newContext email])
  tryFinallyClose body [OEv.closeContext email]

/-- `main_async`: process the students in order; each result is appended to
`results`.  There is no `try` around `_run_for_student`, so an exception
propagates out of `main_async`, discarding `results` and skipping the
remaining students. -/
def main_async (students : List (String × RunOutcome)) :
    Except String (List (String × Bool)) × List OEv :=
  match students with
  | [] => (Except.ok [], [])
  | (email, run) :: rest =>
      let r := run_for_student email run
      match r.1 with
      | Except.error m => (Except.error m, r.2)
      | Except.ok ok =>
          let tail := main_async rest
          let trace := r.2 ++ [OEv.recorded email ok] ++ tail.2
          match tail.1 with
          | Except.error m => (Except.error m, trace)
          | Except.ok results => (Except.ok ((email, ok) :: results), trace)

/-- Measurement helper: beeps in an alarm trace. -/
def beepCount (t : List AlarmEv) : Nat :=
  (t.filter (fun e => e == AlarmEv.beep)).length

/-- The trace the alarm loop produces when it runs `n` full iterations
before observing the stop flag. -/
def mkAlarmTrace : Nat → List AlarmEv
  | 0 => []
  | n + 1 => AlarmEv.beep :: AlarmEv.waitStop ALARM_REPEAT_SEC :: mkAlarmTrace n

/-- The concrete booking environment where the poll loop succeeds but the
first CONTINUE control after it is never found. -/
def envContinueMissing : BookingEnv where
  pollFindsAt := some 0
  continue1 := false
  bookForMyself := true
  loginEnv := ⟨[SelOutcome.filledOk], [SelOutcome.filledOk], true⟩
  personalContinue := true
  continue2 := true
  orderBtn := true
  confirmationVisible := true

-- ---------------------------------------------------------------------------
-- Helper lemmas
-- ---------------------------------------------------------------------------

lemma find_first {α : Type} (p : α → Bool) (l1 l2 : List α) (a : α)
    (hmiss : ∀ x ∈ l1, p x = false) (ha : p a = true) :
    (l1 ++ a :: l2).find? p = some a := by
  induction l1 with
  | nil => simp [List.find?, ha]
  | cons b bs ih =>
      have hb : p b = false := hmiss b (by simp)
      simp only [List.cons_append, List.find?, hb]
      exact ih (fun x hx => hmiss x (by simp [hx]))

lemma pollIterResult_some (it : PollIter) (r : PollResult)
    (h : pollIterResult it = some r) :
    it.selectModulesVisible = true ∨ it.enabledExamButton = true := by
  unfold pollIterResult at h
  by_cases h1 : it.selectModulesVisible
  · exact Or.inl h1
  · by_cases h2 : it.enabledExamButton
    · exact Or.inr h2
    · simp [h1, h2] at h

lemma pollLoopAux_some (env : Nat → PollIter) :
    ∀ fuel i r, pollLoopAux env i fuel = some r →
      ∃ j, pollIterResult (env j) = some r := by
  intro fuel
  induction fuel with
  | zero => intro i r h; simp [pollLoopAux] at h
  | succ n ih =>
      intro i r h
      unfold pollLoopAux at h
      cases hc : pollIterResult (env i) with
      | some r0 => rw [hc] at h; exact ⟨i, by rw [hc, ← Option.some_inj.mp h]⟩
      | none => rw [hc] at h; exact ih (i + 1) r h

lemma pollLoopAux_none (env : Nat → PollIter)
    (h : ∀ j, (env j).selectModulesVisible = false ∧
      (env j).enabledExamButton = false) :
    ∀ fuel i, pollLoopAux env i fuel = none := by
  intro fuel
  induction fuel with
  | zero => intro i; rfl
  | succ n ih =>
      intro i
      have hc : pollIterResult (env i) = none := by
        simp [pollIterResult, (h i).1, (h i).2]
      unfold pollLoopAux
      rw [hc]
      exact ih (i + 1)

lemma handlerRun_disarmed (es : List Bool) : handlerRun false es = 0 := by
  induction es with
  | nil => rfl
  | cons e es ih => simp [handlerRun, ih]

lemma alarmRunAux_terminates (k : Nat) :
    ∀ fuel i, i ≤ k → k < i + fuel → alarmRunAux (some k) i fuel =
      some (mkAlarmTrace (k - i)) := by
  intro fuel
  induction fuel with
  | zero => intro i hle h; exact absurd h (by omega)
  | succ n ih =>
      intro i hle h
      unfold alarmRunAux
      by_cases hk : k ≤ i
      · have : stopSet (some k) i = true := by simp [stopSet, hk]
        rw [this]
        have : k - i = 0 := by omega
        simp [this, mkAlarmTrace]
      · have hs : stopSet (some k) i = false := by
          simp only [stopSet, decide_eq_false_iff_not]
          omega
        rw [hs]
        simp only [Bool.false_eq_true, if_false]
        rw [ih (i + 1) (by omega) (by omega)]
        have : k - i = (k - (i + 1)) + 1 := by omega
        simp [this, mkAlarmTrace]

lemma alarmRunAux_no_stop : ∀ fuel i, alarmRunAux none i fuel = none := by
  intro fuel
  induction fuel with
  | zero => intro i; rfl
  | succ n ih =>
      intro i
      unfold alarmRunAux
      simp [stopSet, ih (i + 1)]

lemma beepCount_mkAlarmTrace (n : Nat) : beepCount (mkAlarmTrace n) = n := by
  induction n with
  | zero => rfl
  | succ m ih => simp [mkAlarmTrace, beepCount] at ih ⊢; omega

-- ---------------------------------------------------------------------------
-- Claim theorems
-- ---------------------------------------------------------------------------

/-- C1: the spec (and the module docstring's "else restart") say a failed
sequencer step restarts the whole session from START, re-running the poll
loop, without bound.  Evaluating the flow at the failing input — the
CONTINUE step after the poll loop never finds its control — shows what the
code actually does: one navigation reset back to START, a `False` return,
and the student's run is abandoned with the poll loop having run exactly
once. -/
theorem run_booking_abandons_on_step_failure :
    run_booking envContinueMissing =
      some (false,
        [Ev.gotoStart, Ev.pollLoop, Ev.stepFailed "continue", Ev.gotoStart]) ∧
    pollCount
      [Ev.gotoStart, Ev.pollLoop, Ev.stepFailed "continue", Ev.gotoStart] = 1 := by
  constructor
  · rfl
  · rfl

/-- C2 counterexample: with a first student whose flow raises and a second
student behind it, the orchestrator result is the propagated exception —
no failure is recorded for the first student and the second student's
context is never opened, contradicting the claim that the exception is
caught, recorded, and the remaining students processed. -/
theorem main_async_exception_aborts_remaining :
    main_async [("a@x", RunOutcome.exn "boom"), ("b@y", RunOutcome.ok true)] =
      (Except.error "boom",
        [OEv.newContext "a@x", OEv.closeContext "a@x"]) := rfl

/-- C2 amended: an uncaught exception during one student's flow propagates
out of the orchestrator.  The student's browsing context is still closed
(the `finally`), but no failure result is recorded for that student and no
remaining student is processed. -/
theorem main_async_exception_propagates (email m : String)
    (rest : List (String × RunOutcome)) :
    main_async ((email, RunOutcome.exn m) :: rest) =
      (Except.error m, [OEv.newContext email, OEv.closeContext email]) := by
  simp [main_async, run_for_student, tryFinallyClose]

/-- C2 amended, instantiated: one excepting student followed by one healthy
student. -/
theorem main_async_exception_propagates_witness :
    main_async [("c@z", RunOutcome.exn "oops"), ("d@w", RunOutcome.ok false)] =
      (Except.error "oops", [OEv.newContext "c@z", OEv.closeContext "c@z"]) :=
  main_async_exception_propagates "c@z" "oops" [("d@w", RunOutcome.ok false)]

/-- C3: for every student and every outcome of the booking flow — success,
failure, or an exception — the browsing context opened for that student is
closed, as the last action before control returns to the orchestrator, and
the flow's outcome is then propagated unchanged. -/
theorem context_closed_on_every_path (email : String) (run : RunOutcome) :
    (run_for_student email run).2 =
      [OEv.newContext email, OEv.closeContext email] ∧
    (run_for_student email run).1 =
      (match run with
       | RunOutcome.ok b => Except.ok b
       | RunOutcome.exn m => Except.error m) := by
  cases run <;> exact ⟨rfl, rfl⟩

/-- C3 witness: the context is closed even when the flow raises. -/
theorem context_closed_on_every_path_witness :
    (run_for_student "a@x" (RunOutcome.exn "boom")).2 =
      [OEv.newContext "a@x", OEv.closeContext "a@x"] :=
  (context_closed_on_every_path "a@x" (RunOutcome.exn "boom")).1

/-- C4: the poll loop exits only by clicking: whenever it terminates, some
iteration saw the primary SELECT MODULES control or a fallback enabled
exam button; and on an environment where neither ever appears, the loop is
still running after any number of iterations. -/
theorem poll_loop_exits_only_on_click (env : Nat → PollIter) :
    (∀ fuel i r, pollLoopAux env i fuel = some r →
      ∃ j, pollIterResult (env j) = some r ∧
        ((env j).selectModulesVisible = true ∨
          (env j).enabledExamButton = true)) ∧
    ((∀ j, (env j).selectModulesVisible = false ∧
        (env j).enabledExamButton = false) →
      ∀ fuel, poll_until_select_modules env fuel = none) := by
  constructor
  · intro fuel i r h
    obtain ⟨j, hj⟩ := pollLoopAux_some env fuel i r h
    exact ⟨j, hj, pollIterResult_some (env j) r hj⟩
  · intro h fuel
    exact pollLoopAux_none env h fuel 0

/-- C4 witness: on a page where neither control ever appears, seven
iterations of the poll loop are all still reloading. -/
theorem poll_loop_exits_only_on_click_witness :
    poll_until_select_modules (fun _ => ⟨false, false, true⟩) 7 = none :=
  (poll_loop_exits_only_on_click (fun _ => ⟨false, false, true⟩)).2
    (fun _ => ⟨rfl, rfl⟩) 7

/-- C5: for every output `u` of the uniform generator (`0 ≤ u < 1`), the
reload delay `random.uniform(0, 800) / 1000` lies in `[0, 0.8)` seconds. -/
theorem rand_refresh_delay_in_range (u : ℚ) (h0 : 0 ≤ u) (h1 : u < 1) :
    0 ≤ rand_refresh_delay u ∧ rand_refresh_delay u < 4 / 5 := by
  have he : rand_refresh_delay u = 800 * u / 1000 := by
    simp [rand_refresh_delay, random_uniform, MAX_REFRESH_MS]
  rw [he]
  constructor
  · apply div_nonneg _ (by norm_num)
    nlinarith
  · rw [div_lt_iff₀ (by norm_num)]
    nlinarith

/-- C5 witness: the delay at generator output 1/2. -/
theorem rand_refresh_delay_in_range_witness :
    0 ≤ rand_refresh_delay (1 / 2) ∧ rand_refresh_delay (1 / 2) < 4 / 5 :=
  rand_refresh_delay_in_range (1 / 2) (by norm_num) (by norm_num)

/-- C6: the double-click stop handler delivers at most one stop signal ever
(it self-disarms after the first double-click, so the alarm cannot be
re-armed by later page events); without a stop signal the alarm loop runs
indefinitely (never exits at any observation depth); and with the stop
flag set at iteration `k` the loop exits after emitting exactly one beep
per completed iteration — `k` beeps, each followed by a wait of the fixed
`ALARM_REPEAT_SEC` interval. -/
theorem alarm_rings_until_single_acknowledgment :
    (∀ events, handlerRun true events ≤ 1) ∧
    (∀ es, handlerRun false es = 0 ∧ handlerRun true (true :: es) = 1) ∧
    (∀ fuel, alarmRun none fuel = none) ∧
    (∀ k, alarmRun (some k) (k + 1) = some (mkAlarmTrace k) ∧
      beepCount (mkAlarmTrace k) = k) := by
  refine ⟨?_, ?_, ?_, ?_⟩
  · intro events
    cases events with
    | nil => exact Nat.zero_le 1
    | cons e es =>
        cases e with
        | true =>
            cases es with
            | nil => simp [handlerRun]
            | cons f fs => simp [handlerRun, handlerRun_disarmed]
        | false =>
            induction es with
            | nil => simp [handlerRun]
            | cons f fs ih =>
                cases f <;> simp_all [handlerRun, handlerRun_disarmed]
  · intro es
    exact ⟨handlerRun_disarmed es, by simp [handlerRun, handlerRun_disarmed]⟩
  · intro fuel
    exact alarmRunAux_no_stop fuel 0
  · intro k
    refine ⟨?_, beepCount_mkAlarmTrace k⟩
    have := alarmRunAux_terminates k (k + 1) 0 (by omega) (by omega)
    simpa [alarmRun] using this

/-- C6 instantiated: stop flag set at iteration 2 — the loop exits after
exactly two beeps. -/
theorem alarm_rings_until_single_acknowledgment_witness :
    alarmRun (some 2) 3 = some (mkAlarmTrace 2) ∧
      beepCount (mkAlarmTrace 2) = 2 :=
  alarm_rings_until_single_acknowledgment.2.2.2 2

/-- C7: whenever the CSV read yields zero rows — unreadable file, read
error, or empty file — the loader returns exactly the embedded default
student; and on every input the loader's result is nonempty. -/
theorem load_csv_zero_rows_default (path : Option String) (read : CsvOutcome)
    (h : read.rows = []) :
    load_students_from_csv path read = [DUMMY_STUDENT] ∧
    ∀ (p : Option String) (r : CsvOutcome),
      load_students_from_csv p r ≠ [] := by
  constructor
  · cases path with
    | none => rfl
    | some p =>
        unfold load_students_from_csv
        rw [h]
        by_cases hp : (p == "") = true <;> simp [hp]
  · intro p r
    cases p with
    | none => simp [load_students_from_csv]
    | some q =>
        unfold load_students_from_csv
        by_cases hq : (q == "") = true
        · simp [hq]
        · simp only [hq, if_false]
          cases hm : r.rows.map Student.from_row with
          | nil => simp
          | cons a l => simp [hm]

/-- C7 witness: an empty CSV file (zero rows) at a real path yields exactly
the default student. -/
theorem load_csv_zero_rows_default_witness :
    load_students_from_csv (some "students.csv") ⟨[], true⟩ =
      [DUMMY_STUDENT] :=
  (load_csv_zero_rows_default (some "students.csv") ⟨[], true⟩ rfl).1

/-- C8: with both `--env-only` and `--ignore-env` set, the student list is
exactly the embedded default record, whatever the CSV path, the CSV
contents, or the environment snapshot. -/
theorem build_students_env_only_ignore_env (csv_path : Option String)
    (env : String → Option String) (read : CsvOutcome) :
    build_students true true csv_path env read = [DUMMY_STUDENT] := rfl

/-- C8 witness: both flags set, with a CSV path, CSV rows, and an
environment override all present — the embedded default still wins. -/
theorem build_students_env_only_ignore_env_witness :
    build_students true true (some "students.csv")
      (fun _ => some "env@override") ⟨[[("email", "row@csv")]], false⟩ =
      [DUMMY_STUDENT] :=
  build_students_env_only_ignore_env (some "students.csv")
    (fun _ => some "env@override") ⟨[[("email", "row@csv")]], false⟩

/-- C9: per form element, the first keyword of the fixed candidate list that
occurs in the element's combined name/placeholder/aria-label text wins:
if the candidate list splits as `l1 ++ (k, v) :: l2` with nothing in `l1`
matching the element and `k` matching, the element is filled with `v`
(paired with `k`); and the filler then moves on — surrounding elements are
processed independently, one fill decision each. -/
theorem personal_form_first_keyword_wins (s : Student) (el : FormElement)
    (l1 l2 : List (String × String)) (k v : String)
    (hsplit : lower_map s = l1 ++ (k, v) :: l2)
    (hmiss : ∀ kv ∈ l1, keyMatches kv.1 (matchTxt el) = false)
    (hhit : keyMatches k (matchTxt el) = true) :
    fillFor (lower_map s) (matchTxt el) = some (k, v) ∧
    ∀ pre post : List FormElement,
      fill_personal_fields s (pre ++ el :: post) =
        fill_personal_fields s pre ++
          some (k, v) :: fill_personal_fields s post := by
  have hfind : fillFor (lower_map s) (matchTxt el) = some (k, v) := by
    unfold fillFor
    rw [hsplit]
    exact find_first _ l1 l2 (k, v) hmiss hhit
  refine ⟨hfind, ?_⟩
  intro pre post
  simp [fill_personal_fields, hfind]

/-- C9 witness: an element named `date_of_birth` matches both "birth" and
"date"; "birth" comes first in the candidate list, so the place of birth
is filled. -/
theorem personal_form_first_keyword_wins_witness :
    fillFor (lower_map DUMMY_STUDENT)
      (matchTxt ⟨"date_of_birth", "", "", "input"⟩) =
      some ("birth", "Nairobi") :=
  (personal_form_first_keyword_wins DUMMY_STUDENT
    ⟨"date_of_birth", "", "", "input"⟩
    [("phone", "+254700000000"), ("first", "Test"), ("given", "Test"),
     ("sur", "User"), ("last", "User"), ("county", "Nairobi")]
    [("zip", "00100"), ("post", "00100"), ("date", "2000-01-01"),
     ("dob", "2000-01-01")]
    "birth" "Nairobi" (by decide) (by decide) (by decide)).1

/-- C10: the login step succeeds iff the email selector loop filled an email
field and the login control was clicked; the password loop's outcome has
no influence on the result, and a failed email fill always fails the
step. -/
theorem login_email_required_password_irrelevant
    (emailSel pw1 pw2 : List SelOutcome) (click : Bool) :
    login ⟨emailSel, pw1, click⟩ = login ⟨emailSel, pw2, click⟩ ∧
    (login ⟨emailSel, pw1, click⟩ = true ↔
      fillLoop emailSel = true ∧ click = true) ∧
    (fillLoop emailSel = false → login ⟨emailSel, pw1, click⟩ = false) := by
  refine ⟨rfl, ?_, ?_⟩
  · simp [login]
  · intro h
    simp [login, h]

/-- C10 witness: second email selector fills after the first finds nothing,
password selectors all raise, login clicked — the step succeeds. -/
theorem login_email_required_password_irrelevant_witness :
    login ⟨[SelOutcome.notFound, SelOutcome.filledOk],
      [SelOutcome.raised, SelOutcome.raised], true⟩ = true :=
  ((login_email_required_password_irrelevant
    [SelOutcome.notFound, SelOutcome.filledOk]
    [SelOutcome.raised, SelOutcome.raised]
    [SelOutcome.raised] true).2.1).mpr ⟨rfl, rfl⟩
